import Mathlib

/-!
Shallow embedding of `Thermostat.py`: a Raspberry-Pi thermostat with a
three-state mode machine (off / heat / cool), a setpoint adjusted by two
buttons, a temperature sensor read with a cached fallback, two PWM LED
actuators (red = heat, blue = cool), and a 1 Hz display loop that refreshes
an LCD, re-evaluates the actuators, and emits a UART telemetry line every
30 ticks.

Temperatures are modelled as rationals, LED drive commands as an explicit
command datatype, and the whole program as a transition system over a `Sys`
record driven by events (mode-cycle button, setpoint buttons, display-loop
tick).  Sensor reads are modelled by an `Option ℚ` input per read attempt:
`some c` is a successful read of `c` degrees Celsius, `none` is an `OSError`.
-/

/-- Operating mode of the thermostat: the three states of the
`Thermostat(StateMachine)` class (`off` is the initial state). -/
inductive Mode
  | off
  | heat
  | cool
deriving DecidableEq

/-- The `cycle` transition: `off.to(heat) | heat.to(cool) | cool.to(off)`. -/
def Mode.cycle : Mode → Mode
  | .off => .heat
  | .heat => .cool
  | .cool => .off

/-- The lowercase state id used in telemetry (`self.current_state.id`). -/
def Mode.id : Mode → String
  | .off => "off"
  | .heat => "heat"
  | .cool => "cool"

/-- Ring position decoding used by the spec: Off=0, Heat=1, Cool=2. -/
def modeOfRing : ℕ → Mode
  | 0 => Mode.off
  | 1 => Mode.heat
  | _ => Mode.cool

/-- Drive command last issued to a PWM LED actuator: `led.off()`,
`led.value = 1`, or `led.pulse(fade_in_time, fade_out_time)`. -/
inductive LedCmd
  | off
  | steady
  | pulse (fadeIn fadeOut : ℚ)
deriving DecidableEq

/-- `Thermostat.read_fahrenheit`: attempt a sensor read; on success convert
Celsius to Fahrenheit and store it in `last_temp`, on `OSError` keep
`last_temp`.  The function always returns the (possibly updated) cache, so
the returned value and the new cache coincide; the model returns that single
value and the caller stores it as the new cache. -/
def read_fahrenheit (sensor : Option ℚ) (last : ℚ) : ℚ :=
  match sensor with
  | some c => c * 9 / 5 + 32
  | none => last

/-- Round-half-even of a rational to an integer, the rounding performed by
Python `%.1f`-style formatting on the scaled value. -/
def roundHalfEven (q : ℚ) : ℤ :=
  if Int.fract q < 1 / 2 then ⌊q⌋
  else if 1 / 2 < Int.fract q then ⌊q⌋ + 1
  else if ⌊q⌋ % 2 = 0 then ⌊q⌋ else ⌊q⌋ + 1

/-- Format a rational with exactly one fractional digit, as Python
`f"{temp:.1f}"` does: round the value to the nearest tenth (ties to even)
and print `<int>.<digit>`. -/
def fmt1 (q : ℚ) : String :=
  let n := roundHalfEven (10 * q)
  (if n < 0 then "-" else "") ++ toString (n.natAbs / 10) ++ "." ++ toString (n.natAbs % 10)

/-- The telemetry line of `Thermostat.send_uart`:
`f"{self.current_state.id},{temp:.1f},{self.set_point}\n"`. -/
def uartLine (m : Mode) (t : ℚ) (sp : ℤ) : String :=
  m.id ++ "," ++ fmt1 t ++ "," ++ toString sp ++ "\n"

/-- Whole-program state: the state-machine mode and `set_point`, the module
global `last_temp`, the last drive command issued to each LED, and the
`counter` / `toggle` locals of `display_loop`. -/
structure Sys where
  mode : Mode
  setPoint : ℤ
  lastTemp : ℚ
  red : LedCmd
  blue : LedCmd
  counter : ℕ
  toggle : Bool
deriving DecidableEq

/-- Initial state: mode `off`, `set_point = 72`, `last_temp = 72.0`, both
LEDs off (PWM value 0 at construction, and `on_enter_off` turns both off),
`counter = 0`, `toggle = False`. -/
def Sys.init : Sys :=
  { mode := Mode.off, setPoint := 72, lastTemp := 72, red := LedCmd.off,
    blue := LedCmd.off, counter := 0, toggle := false }

/-- `Thermostat.control_led`: read the temperature (updating the cache),
floor it, and drive the LED of the current mode: pulsing with 1 s fade-in
and 1 s fade-out when the setpoint is not yet satisfied, steady full-on
otherwise.  In `off` mode neither branch fires. -/
def control_led (sensor : Option ℚ) (s : Sys) : Sys :=
  match s.mode with
  | Mode.heat =>
      if ⌊read_fahrenheit sensor s.lastTemp⌋ < s.setPoint then
        { s with lastTemp := read_fahrenheit sensor s.lastTemp, red := LedCmd.pulse 1 1 }
      else
        { s with lastTemp := read_fahrenheit sensor s.lastTemp, red := LedCmd.steady }
  | Mode.cool =>
      if ⌊read_fahrenheit sensor s.lastTemp⌋ > s.setPoint then
        { s with lastTemp := read_fahrenheit sensor s.lastTemp, blue := LedCmd.pulse 1 1 }
      else
        { s with lastTemp := read_fahrenheit sensor s.lastTemp, blue := LedCmd.steady }
  | Mode.off => { s with lastTemp := read_fahrenheit sensor s.lastTemp }

/-- Second line of the LCD: either `f"Temp:{temp:.1f}F"` or
`f"{state} {set_point}F"` depending on the `toggle` flag. -/
inductive Line2
  | tempView (t : ℚ)
  | modeView (m : Mode) (sp : ℤ)
deriving DecidableEq

/-- Display-loop step `if self.current_state.id in ('heat','cool'):
self.control_led()`. -/
def tickLed (sensor : Option ℚ) (s : Sys) : Sys :=
  if s.mode = Mode.off then s else control_led sensor s

/-- Display-loop step `if counter % 30 == 0: self.send_uart()`: when due,
`send_uart` performs its own sensor read (updating the cache) and emits the
telemetry line; otherwise nothing is emitted. -/
def tickUart (sensor : Option ℚ) (s : Sys) : Sys × Option String :=
  if s.counter % 30 = 0 then
    ({ s with lastTemp := read_fahrenheit sensor s.lastTemp },
     some (uartLine s.mode (read_fahrenheit sensor s.lastTemp) s.setPoint))
  else (s, none)

/-- Display-loop tail: `counter += 1; if counter % 5 == 0: toggle = not
toggle`. -/
def tickAdvance (s : Sys) : Sys :=
  if (s.counter + 1) % 5 = 0 then
    { s with counter := s.counter + 1, toggle := !s.toggle }
  else
    { s with counter := s.counter + 1 }

/-- One iteration of `Thermostat.display_loop`, parameterised by the sensor
outcome of each of its up-to-three `read_fahrenheit` calls (`a`: the display
read, `b`: the `control_led` read, `c`: the `send_uart` read).  Returns the
new state, the second LCD line shown, and the telemetry line emitted, if
any. -/
def Sys.tick (a b c : Option ℚ) (s : Sys) : Sys × Line2 × Option String :=
  let s1 : Sys := { s with lastTemp := read_fahrenheit a s.lastTemp }
  let line2 := if s1.toggle then Line2.tempView s1.lastTemp
               else Line2.modeView s1.mode s1.setPoint
  let s2 := tickLed b s1
  let p := tickUart c s2
  (tickAdvance p.1, line2, p.2)

/-- Events driving the system: a press of the mode-cycle button (with the
sensor outcome of the `control_led` run inside the entry hook, if any), a
press of the increase / decrease buttons, and a display-loop tick with its
up-to-three sensor outcomes. -/
inductive Ev
  | cyc (sensor : Option ℚ)
  | inc
  | dec
  | tick (a b c : Option ℚ)
deriving DecidableEq

/-- Whether an event is a display-loop tick. -/
def Ev.isTick : Ev → Bool
  | .tick _ _ _ => true
  | _ => false

/-- One event of the system.  `cyc` follows python-statemachine semantics:
exit hooks of the source state run first (`on_exit_heat` forces the red LED
off, `on_exit_cool` the blue one), then the state changes, then the entry
hooks run (`on_enter_heat` / `on_enter_cool` call `control_led`,
`on_enter_off` forces both LEDs off).  `inc` / `dec` are
`btn_inc` / `btn_dec`: `set_point ± 1`. -/
def Sys.step (s : Sys) : Ev → Sys
  | .cyc i =>
      match s.mode with
      | Mode.off => control_led i { s with mode := Mode.heat }
      | Mode.heat => control_led i { s with mode := Mode.cool, red := LedCmd.off }
      | Mode.cool => { s with mode := Mode.off, red := LedCmd.off, blue := LedCmd.off }
  | .inc => { s with setPoint := s.setPoint + 1 }
  | .dec => { s with setPoint := s.setPoint - 1 }
  | .tick a b c => (Sys.tick a b c s).1

/-- Run a list of events from a state. -/
def Sys.stepAll (s : Sys) (evs : List Ev) : Sys :=
  evs.foldl Sys.step s

/-- Number of tick events in an event list. -/
def countTicks (evs : List Ev) : ℕ :=
  evs.countP Ev.isTick

/-- Number of increase-button events in an event list. -/
def countInc : List Ev → ℕ
  | [] => 0
  | Ev.inc :: r => countInc r + 1
  | _ :: r => countInc r

/-- Number of decrease-button events in an event list. -/
def countDec : List Ev → ℕ
  | [] => 0
  | Ev.dec :: r => countDec r + 1
  | _ :: r => countDec r

/-- A state reachable from the initial state by some event sequence. -/
def Reachable (s : Sys) : Prop :=
  ∃ evs : List Ev, s = Sys.stepAll Sys.init evs

/-! ### Basic computation lemmas -/

/-- The rounding step of `fmt1` on the telemetry scenario value 71.96. -/
lemma roundHalfEven_7196 : roundHalfEven (10 * (7196 / 100 : ℚ)) = 720 := by
  have h10 : (10 : ℚ) * (7196 / 100) = 3598 / 5 := by norm_num
  have hfl : ⌊(3598 / 5 : ℚ)⌋ = 719 := by norm_num
  have hfr : Int.fract (3598 / 5 : ℚ) = 3 / 5 := by
    rw [Int.fract, hfl]; norm_num
  rw [roundHalfEven, h10, hfr, hfl]
  norm_num

/-- Formatting the telemetry scenario value: 71.96 prints as `72.0`. -/
lemma fmt1_7196 : fmt1 (7196 / 100 : ℚ) = "72.0" := by
  rw [fmt1, roundHalfEven_7196]
  rfl

/-! ### Projection lemmas for `control_led` and the tick pieces -/

lemma control_led_mode (i : Option ℚ) (s : Sys) : (control_led i s).mode = s.mode := by
  rcases s with ⟨m, sp, lt, r, b, c, t⟩
  cases m <;> simp only [control_led] <;> first
    | rfl
    | (split <;> rfl)

lemma control_led_setPoint (i : Option ℚ) (s : Sys) :
    (control_led i s).setPoint = s.setPoint := by
  rcases s with ⟨m, sp, lt, r, b, c, t⟩
  cases m <;> simp only [control_led] <;> first
    | rfl
    | (split <;> rfl)

lemma control_led_counter (i : Option ℚ) (s : Sys) :
    (control_led i s).counter = s.counter := by
  rcases s with ⟨m, sp, lt, r, b, c, t⟩
  cases m <;> simp only [control_led] <;> first
    | rfl
    | (split <;> rfl)

lemma control_led_toggle (i : Option ℚ) (s : Sys) :
    (control_led i s).toggle = s.toggle := by
  rcases s with ⟨m, sp, lt, r, b, c, t⟩
  cases m <;> simp only [control_led] <;> first
    | rfl
    | (split <;> rfl)

lemma control_led_blue_of_heat (i : Option ℚ) (s : Sys) (h : s.mode = Mode.heat) :
    (control_led i s).blue = s.blue := by
  rcases s with ⟨m, sp, lt, r, b, c, t⟩
  simp only [Sys.mode] at h
  subst h
  simp only [control_led]
  split <;> rfl

lemma control_led_red_of_heat (i : Option ℚ) (s : Sys) (h : s.mode = Mode.heat) :
    (control_led i s).red =
      (if ⌊read_fahrenheit i s.lastTemp⌋ < s.setPoint then LedCmd.pulse 1 1
       else LedCmd.steady) := by
  rcases s with ⟨m, sp, lt, r, b, c, t⟩
  simp only [Sys.mode] at h
  subst h
  simp only [control_led]
  split <;> simp_all

lemma control_led_red_of_cool (i : Option ℚ) (s : Sys) (h : s.mode = Mode.cool) :
    (control_led i s).red = s.red := by
  rcases s with ⟨m, sp, lt, r, b, c, t⟩
  simp only [Sys.mode] at h
  subst h
  simp only [control_led]
  split <;> rfl

lemma control_led_blue_of_cool (i : Option ℚ) (s : Sys) (h : s.mode = Mode.cool) :
    (control_led i s).blue =
      (if ⌊read_fahrenheit i s.lastTemp⌋ > s.setPoint then LedCmd.pulse 1 1
       else LedCmd.steady) := by
  rcases s with ⟨m, sp, lt, r, b, c, t⟩
  simp only [Sys.mode] at h
  subst h
  simp only [control_led]
  split <;> simp_all

lemma control_led_red_of_off (i : Option ℚ) (s : Sys) (h : s.mode = Mode.off) :
    (control_led i s).red = s.red := by
  rcases s with ⟨m, sp, lt, r, b, c, t⟩
  simp only [Sys.mode] at h
  subst h
  rfl

lemma control_led_blue_of_off (i : Option ℚ) (s : Sys) (h : s.mode = Mode.off) :
    (control_led i s).blue = s.blue := by
  rcases s with ⟨m, sp, lt, r, b, c, t⟩
  simp only [Sys.mode] at h
  subst h
  rfl

lemma tickLed_mode (i : Option ℚ) (s : Sys) : (tickLed i s).mode = s.mode := by
  rw [tickLed]
  split
  · rfl
  · exact control_led_mode i s

lemma tickLed_setPoint (i : Option ℚ) (s : Sys) : (tickLed i s).setPoint = s.setPoint := by
  rw [tickLed]
  split
  · rfl
  · exact control_led_setPoint i s

lemma tickLed_counter (i : Option ℚ) (s : Sys) : (tickLed i s).counter = s.counter := by
  rw [tickLed]
  split
  · rfl
  · exact control_led_counter i s

lemma tickLed_toggle (i : Option ℚ) (s : Sys) : (tickLed i s).toggle = s.toggle := by
  rw [tickLed]
  split
  · rfl
  · exact control_led_toggle i s

lemma tickUart_fst_mode (i : Option ℚ) (s : Sys) : (tickUart i s).1.mode = s.mode := by
  rw [tickUart]
  split <;> rfl

lemma tickUart_fst_setPoint (i : Option ℚ) (s : Sys) :
    (tickUart i s).1.setPoint = s.setPoint := by
  rw [tickUart]
  split <;> rfl

lemma tickUart_fst_counter (i : Option ℚ) (s : Sys) :
    (tickUart i s).1.counter = s.counter := by
  rw [tickUart]
  split <;> rfl

lemma tickUart_fst_toggle (i : Option ℚ) (s : Sys) : (tickUart i s).1.toggle = s.toggle := by
  rw [tickUart]
  split <;> rfl

lemma tickUart_fst_red (i : Option ℚ) (s : Sys) : (tickUart i s).1.red = s.red := by
  rw [tickUart]
  split <;> rfl

lemma tickUart_fst_blue (i : Option ℚ) (s : Sys) : (tickUart i s).1.blue = s.blue := by
  rw [tickUart]
  split <;> rfl

lemma tickUart_snd_isSome (i : Option ℚ) (s : Sys) :
    (tickUart i s).2.isSome = decide (s.counter % 30 = 0) := by
  rw [tickUart]
  split <;> simp_all

lemma tickAdvance_mode (s : Sys) : (tickAdvance s).mode = s.mode := by
  rw [tickAdvance]
  split <;> rfl

lemma tickAdvance_setPoint (s : Sys) : (tickAdvance s).setPoint = s.setPoint := by
  rw [tickAdvance]
  split <;> rfl

lemma tickAdvance_red (s : Sys) : (tickAdvance s).red = s.red := by
  rw [tickAdvance]
  split <;> rfl

lemma tickAdvance_blue (s : Sys) : (tickAdvance s).blue = s.blue := by
  rw [tickAdvance]
  split <;> rfl

lemma tickAdvance_counter (s : Sys) : (tickAdvance s).counter = s.counter + 1 := by
  rw [tickAdvance]
  split <;> rfl

lemma tickAdvance_toggle (s : Sys) :
    (tickAdvance s).toggle = if (s.counter + 1) % 5 = 0 then !s.toggle else s.toggle := by
  rw [tickAdvance]
  split <;> simp_all

/-! ### Tick lemmas -/

lemma tick_fst_mode (a b c : Option ℚ) (s : Sys) : (Sys.tick a b c s).1.mode = s.mode := by
  rw [Sys.tick, tickAdvance_mode, tickUart_fst_mode, tickLed_mode]

lemma tick_fst_setPoint (a b c : Option ℚ) (s : Sys) :
    (Sys.tick a b c s).1.setPoint = s.setPoint := by
  rw [Sys.tick, tickAdvance_setPoint, tickUart_fst_setPoint, tickLed_setPoint]

lemma tick_fst_counter (a b c : Option ℚ) (s : Sys) :
    (Sys.tick a b c s).1.counter = s.counter + 1 := by
  rw [Sys.tick, tickAdvance_counter, tickUart_fst_counter, tickLed_counter]

lemma tick_fst_toggle (a b c : Option ℚ) (s : Sys) :
    (Sys.tick a b c s).1.toggle =
      if (s.counter + 1) % 5 = 0 then !s.toggle else s.toggle := by
  rw [Sys.tick, tickAdvance_toggle, tickUart_fst_toggle, tickLed_toggle,
    tickUart_fst_counter, tickLed_counter]

lemma tick_uart_isSome (a b c : Option ℚ) (s : Sys) :
    (Sys.tick a b c s).2.2.isSome = decide (s.counter % 30 = 0) := by
  rw [Sys.tick]
  simp only
  rw [tickUart_snd_isSome, tickLed_counter]

lemma tick_line2 (a b c : Option ℚ) (s : Sys) :
    (Sys.tick a b c s).2.1 =
      if s.toggle then Line2.tempView (read_fahrenheit a s.lastTemp)
      else Line2.modeView s.mode s.setPoint := by
  rw [Sys.tick]

lemma tick_fst_red_of_heat (a b c : Option ℚ) (s : Sys) (h : s.mode = Mode.heat) :
    (Sys.tick a b c s).1.red =
      (if ⌊read_fahrenheit b (read_fahrenheit a s.lastTemp)⌋ < s.setPoint
       then LedCmd.pulse 1 1 else LedCmd.steady) := by
  rw [Sys.tick]
  simp only
  rw [tickAdvance_red, tickUart_fst_red, tickLed]
  split
  · simp_all
  · rw [control_led_red_of_heat _ _ (by simp_all)]

lemma tick_fst_blue_of_heat (a b c : Option ℚ) (s : Sys) (h : s.mode = Mode.heat) :
    (Sys.tick a b c s).1.blue = s.blue := by
  rw [Sys.tick]
  simp only
  rw [tickAdvance_blue, tickUart_fst_blue, tickLed]
  split
  · rfl
  · rw [control_led_blue_of_heat _ _ (by simp_all)]

lemma tick_fst_red_of_cool (a b c : Option ℚ) (s : Sys) (h : s.mode = Mode.cool) :
    (Sys.tick a b c s).1.red = s.red := by
  rw [Sys.tick]
  simp only
  rw [tickAdvance_red, tickUart_fst_red, tickLed]
  split
  · rfl
  · rw [control_led_red_of_cool _ _ (by simp_all)]

lemma tick_fst_blue_of_cool (a b c : Option ℚ) (s : Sys) (h : s.mode = Mode.cool) :
    (Sys.tick a b c s).1.blue =
      (if ⌊read_fahrenheit b (read_fahrenheit a s.lastTemp)⌋ > s.setPoint
       then LedCmd.pulse 1 1 else LedCmd.steady) := by
  rw [Sys.tick]
  simp only
  rw [tickAdvance_blue, tickUart_fst_blue, tickLed]
  split
  · simp_all
  · rw [control_led_blue_of_cool _ _ (by simp_all)]

lemma tick_fst_red_of_off (a b c : Option ℚ) (s : Sys) (h : s.mode = Mode.off) :
    (Sys.tick a b c s).1.red = s.red := by
  rw [Sys.tick]
  simp only
  rw [tickAdvance_red, tickUart_fst_red, tickLed]
  split
  · rfl
  · simp_all

lemma tick_fst_blue_of_off (a b c : Option ℚ) (s : Sys) (h : s.mode = Mode.off) :
    (Sys.tick a b c s).1.blue = s.blue := by
  rw [Sys.tick]
  simp only
  rw [tickAdvance_blue, tickUart_fst_blue, tickLed]
  split
  · rfl
  · simp_all

/-! ### Step and run lemmas -/

lemma stepAll_nil (s : Sys) : Sys.stepAll s [] = s := rfl

lemma stepAll_cons (s : Sys) (e : Ev) (evs : List Ev) :
    Sys.stepAll s (e :: evs) = Sys.stepAll (Sys.step s e) evs := rfl

lemma step_cyc_mode (i : Option ℚ) (s : Sys) :
    (Sys.step s (Ev.cyc i)).mode = s.mode.cycle := by
  rcases s with ⟨m, sp, lt, r, b, c, t⟩
  cases m <;> simp only [Sys.step] <;> first
    | rfl
    | (rw [control_led_mode]; rfl)

lemma step_counter (s : Sys) (e : Ev) :
    (Sys.step s e).counter = s.counter + (if e.isTick then 1 else 0) := by
  cases e with
  | cyc i =>
    rcases s with ⟨m, sp, lt, r, b, c, t⟩
    cases m <;> simp only [Sys.step, Ev.isTick, if_false] <;> first
      | rfl
      | (rw [control_led_counter]; rfl)
  | inc => rfl
  | dec => rfl
  | tick a b c =>
    simp only [Sys.step, Ev.isTick, if_true]
    exact tick_fst_counter a b c s

lemma step_toggle_of_not_tick (s : Sys) (e : Ev) (h : e.isTick = false) :
    (Sys.step s e).toggle = s.toggle := by
  cases e with
  | cyc i =>
    rcases s with ⟨m, sp, lt, r, b, c, t⟩
    cases m <;> simp only [Sys.step] <;> first
      | rfl
      | (rw [control_led_toggle])
  | inc => rfl
  | dec => rfl
  | tick a b c => simp [Ev.isTick] at h

lemma countTicks_cons (e : Ev) (evs : List Ev) :
    countTicks (e :: evs) = countTicks evs + (if e.isTick then 1 else 0) := by
  simp [countTicks, List.countP_cons]

lemma counter_stepAll : ∀ (evs : List Ev) (s : Sys),
    (Sys.stepAll s evs).counter = s.counter + countTicks evs := by
  intro evs
  induction evs with
  | nil => intro s; simp [stepAll_nil, countTicks]
  | cons e r ih =>
    intro s
    rw [stepAll_cons, ih, step_counter, countTicks_cons]
    omega

lemma toggle_closed_form : ∀ (evs : List Ev) (s : Sys),
    s.toggle = decide ((s.counter / 5) % 2 = 1) →
    (Sys.stepAll s evs).toggle =
      decide (((Sys.stepAll s evs).counter / 5) % 2 = 1) := by
  intro evs
  induction evs with
  | nil => intro s h; simpa [stepAll_nil] using h
  | cons e r ih =>
    intro s h
    rw [stepAll_cons]
    apply ih
    cases e with
    | cyc i =>
      rcases s with ⟨m, sp, lt, r2, b, c, t⟩
      cases m <;> simp only [Sys.step, control_led_toggle, control_led_counter] <;> exact h
    | inc => exact h
    | dec => exact h
    | tick a b c =>
      simp only [Sys.step]
      rw [tick_fst_toggle]
      simp only [tick_fst_counter]
      rw [h]
      by_cases h5 : (s.counter + 1) % 5 = 0
      · rw [if_pos h5, ← decide_not]
        simp only [decide_eq_decide]
        omega
      · rw [if_neg h5]
        simp only [decide_eq_decide]
        omega

/-! ### LED invariant on reachable states -/

/-- Invariant tying the LED drive commands to the mode: in `off` both LEDs
are off, in `heat` the blue (cool) LED is off, in `cool` the red (heat) LED
is off. -/
def LedInv (s : Sys) : Prop :=
  (s.mode = Mode.off → s.red = LedCmd.off ∧ s.blue = LedCmd.off) ∧
  (s.mode = Mode.heat → s.blue = LedCmd.off) ∧
  (s.mode = Mode.cool → s.red = LedCmd.off)

lemma ledInv_init : LedInv Sys.init := by
  refine ⟨fun _ => ⟨rfl, rfl⟩, fun h => ?_, fun h => ?_⟩ <;>
    simp [Sys.init] at h

lemma ledInv_step (s : Sys) (e : Ev) (h : LedInv s) : LedInv (Sys.step s e) := by
  obtain ⟨hoff, hheat, hcool⟩ := h
  cases e with
  | cyc i =>
    rcases s with ⟨m, sp, lt, r, b, c, t⟩
    cases m with
    | off =>
      simp only [Sys.step]
      refine ⟨fun hmode => ?_, fun _ => ?_, fun hmode => ?_⟩
      · rw [control_led_mode] at hmode
        simp at hmode
      · rw [control_led_blue_of_heat _ _ rfl]
        exact (hoff rfl).2
      · rw [control_led_mode] at hmode
        simp at hmode
    | heat =>
      simp only [Sys.step]
      refine ⟨fun hmode => ?_, fun hmode => ?_, fun _ => ?_⟩
      · rw [control_led_mode] at hmode
        simp at hmode
      · rw [control_led_mode] at hmode
        simp at hmode
      · rw [control_led_red_of_cool _ _ rfl]
    | cool =>
      simp only [Sys.step]
      refine ⟨fun _ => ⟨rfl, rfl⟩, fun hmode => ?_, fun hmode => ?_⟩ <;> simp at hmode
  | inc => exact ⟨hoff, hheat, hcool⟩
  | dec => exact ⟨hoff, hheat, hcool⟩
  | tick a b c =>
    simp only [Sys.step]
    refine ⟨fun hmode => ?_, fun hmode => ?_, fun hmode => ?_⟩
    · rw [tick_fst_mode] at hmode
      exact ⟨(tick_fst_red_of_off a b c s hmode).trans (hoff hmode).1,
        (tick_fst_blue_of_off a b c s hmode).trans (hoff hmode).2⟩
    · rw [tick_fst_mode] at hmode
      exact (tick_fst_blue_of_heat a b c s hmode).trans (hheat hmode)
    · rw [tick_fst_mode] at hmode
      exact (tick_fst_red_of_cool a b c s hmode).trans (hcool hmode)

lemma ledInv_stepAll : ∀ (evs : List Ev) (s : Sys),
    LedInv s → LedInv (Sys.stepAll s evs) := by
  intro evs
  induction evs with
  | nil => intro s h; exact h
  | cons e r ih =>
    intro s h
    rw [stepAll_cons]
    exact ih _ (ledInv_step s e h)

lemma ledInv_reachable (s : Sys) (h : Reachable s) : LedInv s := by
  obtain ⟨evs, rfl⟩ := h
  exact ledInv_stepAll evs Sys.init ledInv_init

/-! ### Helper lemmas for the claims -/

lemma cycle_iterate_off (n : ℕ) : Mode.cycle^[n] Mode.off = modeOfRing (n % 3) := by
  induction n with
  | zero => rfl
  | succ n ih =>
    rw [Function.iterate_succ_apply', ih]
    have h : n % 3 = 0 ∨ n % 3 = 1 ∨ n % 3 = 2 := by omega
    rcases h with h | h | h
    · have h2 : (n + 1) % 3 = 1 := by omega
      rw [h, h2]; rfl
    · have h2 : (n + 1) % 3 = 2 := by omega
      rw [h, h2]; rfl
    · have h2 : (n + 1) % 3 = 0 := by omega
      rw [h, h2]; rfl

lemma mode_stepAll_cyc : ∀ (l : List (Option ℚ)) (s : Sys),
    (Sys.stepAll s (l.map Ev.cyc)).mode = Mode.cycle^[l.length] s.mode := by
  intro l
  induction l with
  | nil => intro s; rfl
  | cons i r ih =>
    intro s
    rw [List.map_cons, stepAll_cons, ih, step_cyc_mode, List.length_cons,
      Function.iterate_succ_apply]

lemma roundHalfEven_err (x : ℚ) : |x - (roundHalfEven x : ℚ)| ≤ 1 / 2 := by
  have h0 : (0 : ℚ) ≤ Int.fract x := Int.fract_nonneg x
  have h1 : Int.fract x < 1 := Int.fract_lt_one x
  have hsub : x - (⌊x⌋ : ℚ) = Int.fract x := Int.self_sub_floor x
  have hsub1 : x - ((⌊x⌋ : ℚ) + 1) = Int.fract x - 1 := by rw [← hsub]; ring
  rw [roundHalfEven]
  split_ifs with hlt hgt hev
  · rw [hsub, abs_of_nonneg h0]
    linarith
  · push_cast
    rw [hsub1, abs_of_neg (by linarith)]
    linarith
  · have hf : Int.fract x = 1 / 2 := le_antisymm (not_lt.mp hgt) (not_lt.mp hlt)
    rw [hsub, hf, abs_of_nonneg (by norm_num)]
  · have hf : Int.fract x = 1 / 2 := le_antisymm (not_lt.mp hgt) (not_lt.mp hlt)
    push_cast
    rw [hsub1, hf]
    have h2 : (1 / 2 : ℚ) - 1 = -(1 / 2) := by norm_num
    rw [h2, abs_neg, abs_of_nonneg (by norm_num)]

lemma setPoint_stepAll_buttons : ∀ (evs : List Ev) (s : Sys),
    (∀ e ∈ evs, e = Ev.inc ∨ e = Ev.dec) →
    (Sys.stepAll s evs).setPoint =
      s.setPoint + (countInc evs : ℤ) - (countDec evs : ℤ) := by
  intro evs
  induction evs with
  | nil => intro s _; simp [stepAll_nil, countInc, countDec]
  | cons e r ih =>
    intro s h
    have he := h e (List.mem_cons_self e r)
    have hr : ∀ e2 ∈ r, e2 = Ev.inc ∨ e2 = Ev.dec :=
      fun e2 hm => h e2 (List.mem_cons_of_mem e hm)
    rcases he with he | he <;> subst he <;> rw [stepAll_cons, ih _ hr] <;>
      simp [Sys.step, countInc, countDec] <;> ring

/-! ### The claims -/

/-- C1: starting from the initial mode Off, after any sequence of N toggle
(cycle) events the mode equals the ring position N mod 3 (Off=0, Heat=1,
Cool=2); the cycle transition is total (always allowed) and follows the
single cyclic successor order Off→Heat→Cool→Off, both at the level of the
`Mode.cycle` function and at the level of the full system driven by cycle
events. -/
theorem C1_mode_ring :
    (Mode.cycle Mode.off = Mode.heat ∧ Mode.cycle Mode.heat = Mode.cool ∧
      Mode.cycle Mode.cool = Mode.off) ∧
    (∀ n : ℕ, Mode.cycle^[n] Mode.off = modeOfRing (n % 3)) ∧
    (∀ (s : Sys) (i : Option ℚ), (Sys.step s (Ev.cyc i)).mode = s.mode.cycle) ∧
    (∀ l : List (Option ℚ),
      (Sys.stepAll Sys.init (l.map Ev.cyc)).mode = modeOfRing (l.length % 3)) := by
  refine ⟨⟨rfl, rfl, rfl⟩, cycle_iterate_off, fun s i => step_cyc_mode i s, ?_⟩
  intro l
  rw [mode_stepAll_cyc]
  exact cycle_iterate_off l.length

/-- Witness for C1: four cycle presses from Off land on ring position
4 mod 3 = 1, i.e. Heat. -/
theorem C1_mode_ring_witness :
    (Sys.stepAll Sys.init ([none, none, none, none].map Ev.cyc)).mode =
      modeOfRing (4 % 3) :=
  C1_mode_ring.2.2.2 [none, none, none, none]

/-- C2: whenever the actuator controller runs in Heat mode, the heat (red)
LED is commanded to pulse with 1 s fade-in and 1 s fade-out if the floored
temperature is strictly below the setpoint and steady full-on otherwise,
while the cool (blue) LED command is untouched; moreover in every reachable
Heat-mode state the cool LED is off. -/
theorem C2_heat_actuator :
    (∀ (s : Sys) (i : Option ℚ), s.mode = Mode.heat →
      (control_led i s).red =
        (if ⌊read_fahrenheit i s.lastTemp⌋ < s.setPoint then LedCmd.pulse 1 1
         else LedCmd.steady) ∧
      (control_led i s).blue = s.blue) ∧
    (∀ s : Sys, Reachable s → s.mode = Mode.heat → s.blue = LedCmd.off) := by
  constructor
  · intro s i h
    exact ⟨control_led_red_of_heat i s h, control_led_blue_of_heat i s h⟩
  · intro s hr h
    exact (ledInv_reachable s hr).2.1 h

/-- Witness for C2: in the Heat state reached by one cycle press the
controller output matches the floored-temperature test and the cool LED is
off. -/
theorem C2_heat_actuator_witness :
    (control_led none (Sys.stepAll Sys.init [Ev.cyc none])).red =
      (if ⌊read_fahrenheit none (Sys.stepAll Sys.init [Ev.cyc none]).lastTemp⌋ <
          (Sys.stepAll Sys.init [Ev.cyc none]).setPoint then LedCmd.pulse 1 1
       else LedCmd.steady) ∧
    (Sys.stepAll Sys.init [Ev.cyc none]).blue = LedCmd.off :=
  ⟨(C2_heat_actuator.1 _ none (by decide)).1,
   C2_heat_actuator.2 _ ⟨[Ev.cyc none], rfl⟩ (by decide)⟩

/-- C3: whenever the actuator controller runs in Cool mode, the cool (blue)
LED is commanded to pulse with 1 s fade-in and 1 s fade-out if the floored
temperature is strictly above the setpoint and steady full-on otherwise,
while the heat (red) LED command is untouched; moreover in every reachable
Cool-mode state the heat LED is off. -/
theorem C3_cool_actuator :
    (∀ (s : Sys) (i : Option ℚ), s.mode = Mode.cool →
      (control_led i s).blue =
        (if ⌊read_fahrenheit i s.lastTemp⌋ > s.setPoint then LedCmd.pulse 1 1
         else LedCmd.steady) ∧
      (control_led i s).red = s.red) ∧
    (∀ s : Sys, Reachable s → s.mode = Mode.cool → s.red = LedCmd.off) := by
  constructor
  · intro s i h
    exact ⟨control_led_blue_of_cool i s h, control_led_red_of_cool i s h⟩
  · intro s hr h
    exact (ledInv_reachable s hr).2.2 h

/-- Witness for C3: in the Cool state reached by two cycle presses the
controller output matches the floored-temperature test and the heat LED is
off. -/
theorem C3_cool_actuator_witness :
    (control_led none (Sys.stepAll Sys.init [Ev.cyc none, Ev.cyc none])).blue =
      (if ⌊read_fahrenheit none
            (Sys.stepAll Sys.init [Ev.cyc none, Ev.cyc none]).lastTemp⌋ >
          (Sys.stepAll Sys.init [Ev.cyc none, Ev.cyc none]).setPoint
       then LedCmd.pulse 1 1 else LedCmd.steady) ∧
    (Sys.stepAll Sys.init [Ev.cyc none, Ev.cyc none]).red = LedCmd.off :=
  ⟨(C3_cool_actuator.1 _ none (by decide)).1,
   C3_cool_actuator.2 _ ⟨[Ev.cyc none, Ev.cyc none], rfl⟩ (by decide)⟩

/-- C4: in Off mode both actuators are off regardless of temperature and
setpoint: every cycle event landing in Off leaves both LEDs off, every
reachable Off-mode state has both LEDs off, and neither the actuator
controller nor a display-loop tick changes either LED command while the
mode is Off. -/
theorem C4_off_actuators :
    (∀ (s : Sys) (i : Option ℚ), (Sys.step s (Ev.cyc i)).mode = Mode.off →
      (Sys.step s (Ev.cyc i)).red = LedCmd.off ∧
      (Sys.step s (Ev.cyc i)).blue = LedCmd.off) ∧
    (∀ s : Sys, Reachable s → s.mode = Mode.off →
      s.red = LedCmd.off ∧ s.blue = LedCmd.off) ∧
    (∀ (s : Sys) (i : Option ℚ), s.mode = Mode.off →
      (control_led i s).red = s.red ∧ (control_led i s).blue = s.blue) ∧
    (∀ (s : Sys) (a b c : Option ℚ), s.mode = Mode.off →
      (Sys.tick a b c s).1.red = s.red ∧ (Sys.tick a b c s).1.blue = s.blue) := by
  refine ⟨?_, ?_, ?_, ?_⟩
  · intro s i h
    rcases s with ⟨m, sp, lt, r, b, c, t⟩
    cases m with
    | off =>
      simp only [Sys.step] at h ⊢
      rw [control_led_mode] at h
      simp at h
    | heat =>
      simp only [Sys.step] at h ⊢
      rw [control_led_mode] at h
      simp at h
    | cool => exact ⟨rfl, rfl⟩
  · intro s hr h
    exact (ledInv_reachable s hr).1 h
  · intro s i h
    exact ⟨control_led_red_of_off i s h, control_led_blue_of_off i s h⟩
  · intro s a b c h
    exact ⟨tick_fst_red_of_off a b c s h, tick_fst_blue_of_off a b c s h⟩

/-- Witness for C4: cycling out of the Cool state reached by two presses
lands in Off with both LEDs off, and a tick in the initial Off state leaves
the LEDs unchanged. -/
theorem C4_off_actuators_witness :
    (Sys.step (Sys.stepAll Sys.init [Ev.cyc none, Ev.cyc none]) (Ev.cyc none)).red =
      LedCmd.off ∧
    (Sys.step (Sys.stepAll Sys.init [Ev.cyc none, Ev.cyc none]) (Ev.cyc none)).blue =
      LedCmd.off ∧
    (Sys.tick none none none Sys.init).1.red = Sys.init.red :=
  ⟨(C4_off_actuators.1 _ none (by decide)).1,
   (C4_off_actuators.1 _ none (by decide)).2,
   (C4_off_actuators.2.2.2 Sys.init none none none rfl).1⟩

/-- C5: the temperature read never propagates an error: a failed read
returns the cached value unchanged, a successful read of `c` degrees
Celsius returns (and caches) the converted value `c * 9/5 + 32`, and a
failed read immediately after a successful one returns the same value the
successful read returned. -/
theorem C5_sensor_fallback :
    (∀ last : ℚ, read_fahrenheit none last = last) ∧
    (∀ c last : ℚ, read_fahrenheit (some c) last = c * 9 / 5 + 32) ∧
    (∀ c last : ℚ,
      read_fahrenheit none (read_fahrenheit (some c) last) =
        read_fahrenheit (some c) last) :=
  ⟨fun _ => rfl, fun _ _ => rfl, fun _ _ => rfl⟩

/-- Witness for C5: a failing read right after a successful read of 20 °C
returns the same 68 °F that the successful read returned. -/
theorem C5_sensor_fallback_witness :
    read_fahrenheit none (read_fahrenheit (some 20) 72) =
      read_fahrenheit (some 20) 72 :=
  C5_sensor_fallback.2.2 20 72

/-- C6: every telemetry line is the lowercase mode name, the temperature
with exactly one fractional digit, and the integer setpoint, joined by
commas and ending in a newline; the one-digit formatting rounds to the
nearest tenth (the rounded tenths value is within 1/20 of the true value,
so it is rounding, not flooring); in particular mode Heat, temperature
71.96 and setpoint 72 emit exactly "heat,72.0,72\n". -/
theorem C6_telemetry_line :
    (∀ (m : Mode) (t : ℚ) (sp : ℤ),
      uartLine m t sp = m.id ++ "," ++ fmt1 t ++ "," ++ toString sp ++ "\n") ∧
    (∀ q : ℚ, |10 * q - (roundHalfEven (10 * q) : ℚ)| ≤ 1 / 2) ∧
    uartLine Mode.heat (7196 / 100) 72 = "heat,72.0,72\n" := by
  refine ⟨fun _ _ _ => rfl, fun q => roundHalfEven_err (10 * q), ?_⟩
  rw [uartLine, fmt1_7196]
  rfl

/-- Witness for C6: the telemetry scenario line itself. -/
theorem C6_telemetry_line_witness :
    uartLine Mode.heat (7196 / 100) 72 = "heat,72.0,72\n" :=
  C6_telemetry_line.2.2

/-- C7: from the default setpoint 72, any interleaving of N increase and M
decrease button events yields setpoint 72 + N − M, with no clamping. -/
theorem C7_setpoint_arith (evs : List Ev)
    (h : ∀ e ∈ evs, e = Ev.inc ∨ e = Ev.dec) :
    (Sys.stepAll Sys.init evs).setPoint =
      72 + (countInc evs : ℤ) - (countDec evs : ℤ) := by
  rw [setPoint_stepAll_buttons evs Sys.init h]
  rfl

/-- Witness for C7: two increases and one decrease give 72 + 2 − 1 = 73. -/
theorem C7_setpoint_arith_witness :
    (Sys.stepAll Sys.init [Ev.inc, Ev.inc, Ev.dec]).setPoint = 73 := by
  have h := C7_setpoint_arith [Ev.inc, Ev.inc, Ev.dec] (by decide)
  norm_num [countInc, countDec] at h
  exact h

/-- C8: the display loop emits telemetry on a tick exactly when the tick
counter is a multiple of 30, counting from tick 0 inclusive and
independently of the mode (the emission test depends only on the counter):
the counter starts at 0, only ticks advance it, after any event sequence it
equals the number of ticks so far, and among the first 30 ticks only the
tick with counter 0 emits. -/
theorem C8_telemetry_cadence :
    Sys.init.counter = 0 ∧
    (∀ (s : Sys) (a b c : Option ℚ),
      (Sys.tick a b c s).2.2.isSome = decide (s.counter % 30 = 0)) ∧
    (∀ (s : Sys) (e : Ev),
      (Sys.step s e).counter = s.counter + (if e.isTick then 1 else 0)) ∧
    (∀ evs : List Ev, (Sys.stepAll Sys.init evs).counter = countTicks evs) ∧
    (∀ (evs : List Ev) (a b c : Option ℚ), countTicks evs < 30 →
      ((Sys.tick a b c (Sys.stepAll Sys.init evs)).2.2.isSome = true ↔
        countTicks evs = 0)) := by
  refine ⟨rfl, fun s a b c => tick_uart_isSome a b c s, step_counter, ?_, ?_⟩
  · intro evs
    rw [counter_stepAll]
    simp [Sys.init]
  · intro evs a b c h
    rw [tick_uart_isSome, counter_stepAll]
    simp only [Sys.init, decide_eq_true_eq]
    omega

/-- Witness for C8: the very first tick emits, and the tick after one
earlier tick (counter 1) does not. -/
theorem C8_telemetry_cadence_witness :
    (Sys.tick none none none Sys.init).2.2.isSome = true ∧
    ((Sys.tick none none none
        (Sys.stepAll Sys.init [Ev.tick none none none])).2.2.isSome = true ↔
      countTicks [Ev.tick none none none] = 0) :=
  ⟨(C8_telemetry_cadence.2.1 Sys.init none none none).trans (by decide),
   C8_telemetry_cadence.2.2.2.2 [Ev.tick none none none] none none none (by decide)⟩

/-- C9: the second display line alternates deterministically between the
temperature view and the mode+setpoint view: the toggle flag starts false,
is untouched by non-tick events, flips exactly when the post-increment
counter is a multiple of 5 (so after any event sequence it equals the
parity of (number of ticks / 5), independent of the 30-tick telemetry
cadence), adding 5 ticks always flips it, a tick taken with the flag false
shows the mode+setpoint view, and in particular each of the first 5 ticks
(0–4) shows the mode+setpoint view. -/
theorem C9_display_alternation :
    Sys.init.toggle = false ∧
    (∀ (s : Sys) (e : Ev), e.isTick = false → (Sys.step s e).toggle = s.toggle) ∧
    (∀ evs : List Ev,
      (Sys.stepAll Sys.init evs).toggle = decide ((countTicks evs / 5) % 2 = 1)) ∧
    (∀ evs1 evs2 : List Ev, countTicks evs2 = countTicks evs1 + 5 →
      (Sys.stepAll Sys.init evs2).toggle = !(Sys.stepAll Sys.init evs1).toggle) ∧
    (∀ (s : Sys) (a b c : Option ℚ), s.toggle = false →
      (Sys.tick a b c s).2.1 = Line2.modeView s.mode s.setPoint) ∧
    (∀ (evs : List Ev) (a b c : Option ℚ), countTicks evs < 5 →
      (Sys.tick a b c (Sys.stepAll Sys.init evs)).2.1 =
        Line2.modeView (Sys.stepAll Sys.init evs).mode
          (Sys.stepAll Sys.init evs).setPoint) := by
  have key : ∀ evs : List Ev,
      (Sys.stepAll Sys.init evs).toggle = decide ((countTicks evs / 5) % 2 = 1) := by
    intro evs
    have h := toggle_closed_form evs Sys.init (by decide)
    rw [h, counter_stepAll]
    simp only [Sys.init, decide_eq_decide]
    omega
  have line2key : ∀ (s : Sys) (a b c : Option ℚ), s.toggle = false →
      (Sys.tick a b c s).2.1 = Line2.modeView s.mode s.setPoint := by
    intro s a b c h
    rw [tick_line2, h]
    simp
  refine ⟨rfl, step_toggle_of_not_tick, key, ?_, line2key, ?_⟩
  · intro evs1 evs2 h
    rw [key evs1, key evs2, h, ← decide_not]
    simp only [decide_eq_decide]
    omega
  · intro evs a b c h
    apply line2key
    rw [key evs]
    simp only [decide_eq_false_iff_not]
    omega

/-- Witness for C9: the tick taken after one earlier tick (tick index 1 < 5)
still shows the mode+setpoint view. -/
theorem C9_display_alternation_witness :
    (Sys.tick none none none
        (Sys.stepAll Sys.init [Ev.tick none none none])).2.1 =
      Line2.modeView (Sys.stepAll Sys.init [Ev.tick none none none]).mode
        (Sys.stepAll Sys.init [Ev.tick none none none]).setPoint :=
  C9_display_alternation.2.2.2.2.2 [Ev.tick none none none] none none none (by decide)

/-- C10: an increase or decrease button press changes only the setpoint
(by +1 / −1) and leaves the mode, the cached temperature and both actuator
commands unchanged (no actuator re-evaluation happens on the press); the
actuators pick up the new setpoint at the next display-loop tick, whose
heat-LED decision compares against the incremented setpoint. -/
theorem C10_button_frame :
    (∀ s : Sys,
      (Sys.step s Ev.inc).setPoint = s.setPoint + 1 ∧
      (Sys.step s Ev.inc).mode = s.mode ∧
      (Sys.step s Ev.inc).lastTemp = s.lastTemp ∧
      (Sys.step s Ev.inc).red = s.red ∧
      (Sys.step s Ev.inc).blue = s.blue) ∧
    (∀ s : Sys,
      (Sys.step s Ev.dec).setPoint = s.setPoint - 1 ∧
      (Sys.step s Ev.dec).mode = s.mode ∧
      (Sys.step s Ev.dec).lastTemp = s.lastTemp ∧
      (Sys.step s Ev.dec).red = s.red ∧
      (Sys.step s Ev.dec).blue = s.blue) ∧
    (∀ (s : Sys) (a b c : Option ℚ), s.mode = Mode.heat →
      (Sys.tick a b c (Sys.step s Ev.inc)).1.red =
        (if ⌊read_fahrenheit b (read_fahrenheit a s.lastTemp)⌋ < s.setPoint + 1
         then LedCmd.pulse 1 1 else LedCmd.steady)) := by
  refine ⟨fun s => ⟨rfl, rfl, rfl, rfl, rfl⟩,
    fun s => ⟨rfl, rfl, rfl, rfl, rfl⟩, ?_⟩
  intro s a b c h
  exact tick_fst_red_of_heat a b c (Sys.step s Ev.inc) h

/-- Witness for C10: an increase press in the initial state bumps the
setpoint, and in the Heat state an increase press followed by a tick drives
the heat LED against the incremented setpoint. -/
theorem C10_button_frame_witness :
    (Sys.step Sys.init Ev.inc).setPoint = Sys.init.setPoint + 1 ∧
    (Sys.tick none none none
        (Sys.step (Sys.stepAll Sys.init [Ev.cyc none]) Ev.inc)).1.red =
      (if ⌊read_fahrenheit none
            (read_fahrenheit none (Sys.stepAll Sys.init [Ev.cyc none]).lastTemp)⌋ <
          (Sys.stepAll Sys.init [Ev.cyc none]).setPoint + 1
       then LedCmd.pulse 1 1 else LedCmd.steady) :=
  ⟨(C10_button_frame.1 Sys.init).1,
   C10_button_frame.2.2 (Sys.stepAll Sys.init [Ev.cyc none]) none none none (by decide)⟩
